import Mathlib

/-!
Shallow embedding of the youtube-to-transcript pipeline
(src/youtube_transcript_fetcher.py and src/youtube_transcriber.py).

Strings are modelled as lists of characters; Python string operations
(split, startswith, replace, strip) are embedded as structurally
recursive functions with the same semantics.  Fallible operations
return Option or Except; side effects (file writes, network calls)
are modelled as explicit event lists.
-/

namespace YTrans

/-- Character list of a string literal (Python str as list of code points). -/
def strL (s : String) : List Char := s.toList

/-- Python str.startswith: the first list begins the second. -/
def leadsWith : List Char → List Char → Bool
  | [], _ => true
  | _ :: _, [] => false
  | p :: ps, c :: cs => p = c && leadsWith ps cs

/-- Substring occurrence: pat occurs contiguously somewhere in the list. -/
def occursIn (pat : List Char) : List Char → Bool
  | [] => leadsWith pat []
  | c :: rest => leadsWith pat (c :: rest) || occursIn pat rest

/-- Drop matching characters from the end of a list. -/
def dropTail (p : Char → Bool) (s : List Char) : List Char :=
  (s.reverse.dropWhile p).reverse

/-- Python str.strip(chars): remove characters matching p from both ends. -/
def stripBoth (p : Char → Bool) (s : List Char) : List Char :=
  dropTail p (s.dropWhile p)

/-- Python whitespace characters, as stripped by str.strip(). -/
def isPyWhite (c : Char) : Bool :=
  c = ' ' || c = '\t' || c = '\n' || c = '\r' || c = '\x0b' || c = '\x0c'

/-- Python str.strip() with no argument: strip whitespace from both ends. -/
def pyStrip (s : List Char) : List Char := stripBoth isPyWhite s

/-- Characters stripped by the bullet strip call str.strip(chars) with the
bullet marker and space as the argument. -/
def isBulletSpace (c : Char) : Bool := c = '•' || c = ' '

/-- Python str.split(ch) for a single-character separator: every occurrence
splits, empty pieces are kept. -/
def splitChar (ch : Char) : List Char → List (List Char)
  | [] => [[]]
  | c :: rest =>
    match splitChar ch rest with
    | [] => [[c]]
    | h :: t => if c = ch then [] :: h :: t else (c :: h) :: t

/-- Python str.split(s) for the two-character separator of one newline
followed by another: non-overlapping splits, left to right, empties kept. -/
def splitNN : List Char → List (List Char)
  | '\n' :: '\n' :: rest => [] :: splitNN rest
  | c :: rest =>
    match splitNN rest with
    | [] => [[c]]
    | h :: t => (c :: h) :: t
  | [] => [[]]

/- ### Video Source Resolver (get_video_id, youtube_transcript_fetcher.py 25-37) -/

/-- Membership in the regex character class of the video-id patterns. -/
def isIdChar (c : Char) : Bool :=
  ('0' ≤ c && c ≤ '9') || ('A' ≤ c && c ≤ 'Z') || ('a' ≤ c && c ≤ 'z') ||
  c = '_' || c = '-'

/-- Match exactly 11 id-class characters at the head of the list,
returning them (the regex group). -/
def takeId (l : List Char) : Option (List Char) :=
  let pre := l.take 11
  if pre.length = 11 && pre.all isIdChar then some pre else none

/-- re.search of the first pattern: leftmost position where a v-equals
marker or a slash is followed by 11 id-class characters; the trailing
dot-star of the pattern always succeeds and binds nothing. -/
def searchPat1 : List Char → Option (List Char)
  | 'v' :: '=' :: rest =>
    (match takeId rest with
     | some id => some id
     | none => searchPat1 ('=' :: rest))
  | '/' :: rest =>
    (match takeId rest with
     | some id => some id
     | none => searchPat1 rest)
  | _ :: rest => searchPat1 rest
  | [] => none

/-- re.search of the second pattern: leftmost occurrence of the shortened
host marker followed by 11 id-class characters. -/
def searchPat2 : List Char → Option (List Char)
  | 'y' :: 'o' :: 'u' :: 't' :: 'u' :: '.' :: 'b' :: 'e' :: '/' :: rest =>
    (match takeId rest with
     | some id => some id
     | none => searchPat2 ('o' :: 'u' :: 't' :: 'u' :: '.' :: 'b' :: 'e' :: '/' :: rest))
  | _ :: rest => searchPat2 rest
  | [] => none

/-- get_video_id: try the patterns in order, return the first group;
none models the ValueError for an unrecognized URL. -/
def get_video_id (url : List Char) : Option (List Char) :=
  match searchPat1 url with
  | some id => some id
  | none => searchPat2 url

/- ### Caption Retriever (fetch_transcript, youtube_transcript_fetcher.py 55-66) -/

/-- One caption track offered by the hosting platform. -/
structure CaptionTrack where
  language_code : List Char
  is_generated : Bool
deriving DecidableEq

/-- Modelled from the spec: the caption service (an external dependency,
not under src/) exposes a finder for a human-authored track; per the
spec's selection policy this yields a manually created track when one
exists.  Failure (an exception in the source) is modelled as none. -/
def find_manually_created (ts : List CaptionTrack) : Option CaptionTrack :=
  ts.find? (fun t => !t.is_generated)

/-- Modelled from the spec: the caption service's finder for an
automatically generated track; none models the exception. -/
def find_generated (ts : List CaptionTrack) : Option CaptionTrack :=
  ts.find? (fun t => t.is_generated)

/-- Modelled from the spec: the caption service's language-preference
finder returns the first available track matching the given ordered
language-code list; none models the exception. -/
def find_transcript (langs : List (List Char)) (ts : List CaptionTrack) :
    Option CaptionTrack :=
  langs.findSome? (fun l => ts.find? (fun t => t.language_code == l))

/-- The fixed preference list passed at line 66 of the source:
English, Arabic, Spanish, French, German, Italian. -/
def preferenceLanguages : List (List Char) :=
  [strL "en", strL "ar", strL "es", strL "fr", strL "de", strL "it"]

/-- fetch_transcript's track selection (lines 57-66): try the manual
finder, on failure the generated finder, on failure the preference-list
finder. -/
def fetch_transcript_select (ts : List CaptionTrack) : Option CaptionTrack :=
  match find_manually_created ts with
  | some t => some t
  | none =>
    match find_generated ts with
    | some t => some t
    | none => find_transcript preferenceLanguages ts

/- ### Summarization Client construction (TranscriptFetcher.__init__, lines 17-23) -/

/-- Observable side effects of the fetcher, in order of occurrence. -/
inductive Effect
  | mkdirOutput
  | httpPost
deriving DecidableEq

/-- The constructed client state. -/
structure TranscriptFetcher where
  output_dir : List Char
  deepseek_api_key : List Char
deriving DecidableEq

/-- Python truthiness of os.getenv's result: None and the empty string
are falsy. -/
def envTruthy : Option (List Char) → Bool
  | none => false
  | some s => !s.isEmpty

/-- TranscriptFetcher.__init__: create the output directory, read the
token from the environment, and raise (error) when it is absent; the
effect trace records every externally visible action the constructor
performs. -/
def TranscriptFetcher.construct (output_dir : List Char)
    (envKey : Option (List Char)) :
    Except (List Char) TranscriptFetcher × List Effect :=
  match envKey with
  | some k =>
    if k.isEmpty then
      (Except.error (strL "DEEPSEEK_API_KEY not found in .env file"), [Effect.mkdirOutput])
    else
      (Except.ok ⟨output_dir, k⟩, [Effect.mkdirOutput])
  | none =>
    (Except.error (strL "DEEPSEEK_API_KEY not found in .env file"), [Effect.mkdirOutput])

/- ### Summarization reply parsing (summarize_text, lines 159-173) -/

/-- The parsed response dictionary: a field is none when its key is
absent from the dict. -/
structure SummaryDict where
  abstract : Option (List Char) := none
  key_concepts : Option (List (List Char)) := none
  category : Option (List Char) := none
  summary : Option (List Char) := none
deriving DecidableEq

/-- Python str.replace of the abstract label with the empty string:
remove every non-overlapping occurrence, left to right. -/
def replaceAbstract : List Char → List Char
  | 'A' :: 'B' :: 'S' :: 'T' :: 'R' :: 'A' :: 'C' :: 'T' :: ':' :: rest =>
    replaceAbstract rest
  | c :: rest => c :: replaceAbstract rest
  | [] => []

/-- Python str.replace of the category label with the empty string. -/
def replaceCategory : List Char → List Char
  | 'C' :: 'A' :: 'T' :: 'E' :: 'G' :: 'O' :: 'R' :: 'Y' :: ':' :: rest =>
    replaceCategory rest
  | c :: rest => c :: replaceCategory rest
  | [] => []

/-- Python str.replace of the summary label with the empty string. -/
def replaceSummary : List Char → List Char
  | 'S' :: 'U' :: 'M' :: 'M' :: 'A' :: 'R' :: 'Y' :: ':' :: rest =>
    replaceSummary rest
  | c :: rest => c :: replaceSummary rest
  | [] => []

/-- The key-concepts comprehension at line 166: the lines after the
label, keeping those whose whitespace-strip is non-empty, each with
bullet markers and spaces stripped from both ends and then whitespace
stripped. -/
def parseBullets (sec : List Char) : List (List Char) :=
  ((splitChar '\n' sec).drop 1).filterMap fun line =>
    if pyStrip line = [] then none
    else some (pyStrip (stripBoth isBulletSpace line))

/-- One iteration of the section loop (lines 162-171): classify the
section by its leading label and set the corresponding dict key. -/
def processSection (d : SummaryDict) (sec : List Char) : SummaryDict :=
  if leadsWith (strL "ABSTRACT:") sec then
    { d with abstract := some (pyStrip (replaceAbstract sec)) }
  else if leadsWith (strL "KEY CONCEPTS:") sec then
    { d with key_concepts := some (parseBullets sec) }
  else if leadsWith (strL "CATEGORY:") sec then
    { d with category := some (pyStrip (replaceCategory sec)) }
  else if leadsWith (strL "SUMMARY:") sec then
    { d with summary := some (pyStrip (replaceSummary sec)) }
  else d

/-- summarize_text's parsing of the remote reply (lines 159-173): split
on blank-line boundaries and classify each section. -/
def summarize_parse (content : List Char) : SummaryDict :=
  (splitNN content).foldl processSection {}

/- ### Analysis file writing (process_transcript, lines 181-214) -/

/-- The placeholder written for an absent prose field. -/
def notAvailable : List Char := strL "Not available"

/-- The exact text written to the analysis file (lines 191-200). -/
def analysisText (language : List Char) (d : SummaryDict) : List Char :=
  strL "=== TRANSCRIPT ANALYSIS (Language: " ++ language ++ strL ") ===\n\n" ++
  strL "ABSTRACT:\n" ++
  d.abstract.getD notAvailable ++
  strL "\n\nKEY CONCEPTS:\n" ++
  ((d.key_concepts.getD []).map (fun c => strL "• " ++ c ++ ['\n'])).flatten ++
  strL "\nCATEGORY:\n" ++ d.category.getD notAvailable ++ ['\n'] ++
  strL "\nDETAILED SUMMARY:\n" ++
  d.summary.getD notAvailable

/-- Python truthiness of the parsed dict: an empty dict is falsy. -/
def dictTruthy (d : SummaryDict) : Bool :=
  d.abstract.isSome || d.key_concepts.isSome || d.category.isSome || d.summary.isSome

/-- The analysis file write guarded by the truthiness test at line 189:
none means no analysis file is written. -/
def writeAnalysis (language : List Char) (d : SummaryDict) : Option (List Char) :=
  if dictTruthy d then some (analysisText language d) else none

/-- summarize_text as seen by its caller: none when the network request
raised (lines 175-179), otherwise the parsed dict. -/
def summarize_text (apiOk : Bool) (reply : List Char) : Option SummaryDict :=
  if apiOk then some (summarize_parse reply) else none

/-- process_transcript's summary-file output (lines 187-200): none when
summarize_text failed or returned a falsy dict. -/
def process_transcript (language : List Char) (apiOk : Bool) (reply : List Char) :
    Option (List Char) :=
  match summarize_text apiOk reply with
  | none => none
  | some d => writeAnalysis language d

/-- Parse-then-write composition for one remote reply. -/
def processReply (language reply : List Char) : Option (List Char) :=
  writeAnalysis language (summarize_parse reply)

/-- The transcript file contents written at lines 77-79: a language
header, a blank line, then the formatted transcript. -/
def transcriptFileContent (transcript language : List Char) : List Char :=
  strL "Language: " ++ language ++ strL "\n\n" ++ transcript

/-- The caption pipeline's file writes, in order (main, lines 228-237):
the transcript file is written inside fetch_transcript when fetching
succeeds; process_transcript then writes the analysis file only when
summarization succeeds.  fetched is the Transcript Record (text,
language) or none on fetch failure; apiOk and reply describe the remote
summarization call. -/
def runCaptionPipeline (videoId : List Char)
    (fetched : Option (List Char × List Char)) (apiOk : Bool) (reply : List Char) :
    List (List Char × List Char) :=
  match fetched with
  | none => []
  | some (transcript, language) =>
    let tWrite := (videoId ++ strL "_transcript.txt",
                   transcriptFileContent transcript language)
    match process_transcript language apiOk reply with
    | none => [tWrite]
    | some afile => [tWrite, (videoId ++ strL "_analysis.txt", afile)]

/- ### Audio Acquirer (download_audio, youtube_transcriber.py 16-83) -/

/-- One stream advertised by the platform; bitrate and resolution are
absent on streams that do not carry them. -/
structure MediaStream where
  only_audio : Bool
  progressive : Bool
  abr : Option Nat
  resolution : Option Nat
  itag : Nat
deriving DecidableEq

/-- Modelled from the spec: the stream query (pytube, an external
dependency not under src/) filtered to audio-only streams, ordered by
bitrate descending, first element — the audio-only stream with the
highest bitrate; streams without a bitrate attribute are excluded by
the ordering.  Ties resolve to the earliest stream. -/
def highestAbrAudio : List MediaStream → Option MediaStream
  | [] => none
  | s :: rest =>
    match highestAbrAudio rest with
    | none => if s.only_audio && s.abr.isSome then some s else none
    | some t =>
      if s.only_audio && s.abr.isSome then
        if s.abr.getD 0 < t.abr.getD 0 then some t else some s
      else some t

/-- Modelled from the spec: the stream query filtered to progressive
streams, ordered by resolution ascending, first element — the
lowest-resolution progressive stream; streams without a resolution
attribute are excluded by the ordering.  Ties resolve to the earliest
stream. -/
def lowestResProgressive : List MediaStream → Option MediaStream
  | [] => none
  | s :: rest =>
    match lowestResProgressive rest with
    | none => if s.progressive && s.resolution.isSome then some s else none
    | some t =>
      if s.progressive && s.resolution.isSome then
        if t.resolution.getD 0 < s.resolution.getD 0 then some t else some s
      else some t

/-- download_audio's stream selection (lines 34-52): with stream
enumeration working, highest-bitrate audio-only, else the first
audio-only stream, else the lowest-resolution progressive stream; on an
enumeration exception, the first advertised stream. -/
def selectStream (ss : List MediaStream) (enumOk : Bool) : Option MediaStream :=
  if enumOk then
    match highestAbrAudio ss with
    | some s => some s
    | none =>
      match ss.find? (fun s => s.only_audio) with
      | some s => some s
      | none => lowestResProgressive ss
  else ss.head?

/-- download_audio's outcome for the selection stage (lines 54-55): the
selected stream, or the raise when no tier produced one.  The outer
handler at lines 72-83 converts the raise to a reported failure. -/
def download_audio (ss : List MediaStream) (enumOk : Bool) :
    Except (List Char) MediaStream :=
  match selectStream ss enumOk with
  | some s => Except.ok s
  | none => Except.error (strL "No suitable audio stream found")

/- ### Auxiliary definitions used by the statements -/

/-- Joining lines with single newlines (inverse of a newline split with
no empty trailing piece). -/
def joinNL : List (List Char) → List Char
  | [] => []
  | [l] => l
  | l :: ls => l ++ '\n' :: joinNL ls

/-- Failure of the summarization stage as observed by process_transcript:
either the remote call raised (summarize_text returned none) or the
parsed dict is falsy. -/
def summarizationFails (apiOk : Bool) (reply : List Char) : Bool :=
  !apiOk || !dictTruthy (summarize_parse reply)

/-- A progressive 360p stream with no separate audio bitrate. -/
def prog360 : MediaStream := ⟨false, true, none, some 360, 18⟩

/-- A progressive 720p stream with no separate audio bitrate. -/
def prog720 : MediaStream := ⟨false, true, none, some 720, 22⟩

/-- A progressive 144p stream with no separate audio bitrate. -/
def prog144 : MediaStream := ⟨false, true, none, some 144, 17⟩

/-- A stream set containing only progressive (audio+video) streams. -/
def progressiveOnly : List MediaStream := [prog360, prog720, prog144]

/-- An audio-only stream used as a concrete selection input. -/
def audioOnly128 : MediaStream := ⟨true, false, some 128, none, 140⟩

/- ### Helper lemmas about the string embedding -/

lemma leadsWith_self_append (p t : List Char) : leadsWith p (p ++ t) = true := by
  induction p with
  | nil => rfl
  | cons c ps ih => simp [leadsWith, ih]

lemma occursIn_nil_pat (s : List Char) : occursIn [] s = true := by
  cases s <;> simp [occursIn, leadsWith]

lemma occursIn_of_leadsWith (p s : List Char) (h : leadsWith p s = true) :
    occursIn p s = true := by
  cases s with
  | nil => exact h
  | cons c rest => simp [occursIn, h]

lemma leadsWith_append (p s t : List Char) (h : leadsWith p s = true) :
    leadsWith p (s ++ t) = true := by
  induction p generalizing s with
  | nil => rfl
  | cons c ps ih =>
    cases s with
    | nil => simp [leadsWith] at h
    | cons d rest =>
      simp [leadsWith] at h ⊢
      exact ⟨h.1, ih rest h.2⟩

lemma occursIn_append_left (p x y : List Char) (h : occursIn p x = true) :
    occursIn p (x ++ y) = true := by
  induction x with
  | nil =>
    have : p = [] := by
      cases p with
      | nil => rfl
      | cons c ps => simp [occursIn, leadsWith] at h
    subst this
    exact occursIn_nil_pat y
  | cons c rest ih =>
    simp [occursIn] at h
    cases h with
    | inl h1 =>
      have := leadsWith_append p (c :: rest) y h1
      simp [occursIn]
      exact Or.inl this
    | inr h2 =>
      simp [occursIn]
      exact Or.inr (ih h2)

lemma occursIn_append_right (p x y : List Char) (h : occursIn p y = true) :
    occursIn p (x ++ y) = true := by
  induction x with
  | nil => exact h
  | cons c rest ih => simp [occursIn, ih]

lemma occursIn_self_append (p t : List Char) : occursIn p (p ++ t) = true :=
  occursIn_of_leadsWith _ _ (leadsWith_self_append p t)

lemma occursIn_concat2 (p a b r : List Char) (h : occursIn p (a ++ b) = true) :
    occursIn p (a ++ (b ++ r)) = true := by
  have := occursIn_append_left p (a ++ b) r h
  simpa [List.append_assoc] using this

lemma occursIn_concat3 (p a b c r : List Char) (h : occursIn p (a ++ b ++ c) = true) :
    occursIn p (a ++ (b ++ (c ++ r))) = true := by
  have := occursIn_append_left p (a ++ b ++ c) r h
  simpa [List.append_assoc] using this

lemma splitChar_ne_nil (ch : Char) (s : List Char) : splitChar ch s ≠ [] := by
  induction s with
  | nil => simp [splitChar]
  | cons c rest ih =>
    cases hsp : splitChar ch rest with
    | nil => simp [splitChar, hsp]
    | cons h t =>
      simp only [splitChar, hsp]
      split <;> simp

lemma splitChar_no_sep (ch : Char) (s : List Char) (h : ∀ c ∈ s, c ≠ ch) :
    splitChar ch s = [s] := by
  induction s with
  | nil => rfl
  | cons c rest ih =>
    have hc : c ≠ ch := h c (List.mem_cons_self ..)
    have ih' := ih (fun x hx => h x (List.mem_cons_of_mem _ hx))
    simp [splitChar, ih', hc]

lemma splitChar_append_sep (ch : Char) (a b : List Char) (h : ∀ c ∈ a, c ≠ ch) :
    splitChar ch (a ++ ch :: b) = a :: splitChar ch b := by
  induction a with
  | nil =>
    cases hsp : splitChar ch b with
    | nil => exact absurd hsp (splitChar_ne_nil ch b)
    | cons x t => simp [splitChar, hsp]
  | cons c a2 ih =>
    have hc : c ≠ ch := h c (List.mem_cons_self ..)
    have ih' := ih (fun x hx => h x (List.mem_cons_of_mem _ hx))
    simp [splitChar, ih', hc]

lemma splitChar_joinNL (lines : List (List Char)) (h0 : lines ≠ [])
    (h1 : ∀ l ∈ lines, ∀ c ∈ l, c ≠ '\n') :
    splitChar '\n' (joinNL lines) = lines := by
  induction lines with
  | nil => exact absurd rfl h0
  | cons l ls ih =>
    cases ls with
    | nil =>
      exact splitChar_no_sep '\n' l (h1 l (List.mem_cons_self ..))
    | cons l2 ls2 =>
      have step : joinNL (l :: l2 :: ls2) = l ++ '\n' :: joinNL (l2 :: ls2) := rfl
      rw [step,
        splitChar_append_sep '\n' l _ (h1 l (List.mem_cons_self ..)),
        ih (by simp) (fun x hx => h1 x (List.mem_cons_of_mem _ hx))]

/- ### Claim theorems -/

/-- C1: for the supported URL forms, the Video Source Resolver returns the
canonical 11-character identifier independently of trailing query
parameters (any suffix) and of protocol or host variations; in
particular the v-parameter form and the shortened youtu.be form of the
example video both yield the same identifier. -/
theorem claim1_video_id_canonical (suffix : List Char) :
    get_video_id (strL "https://www.youtube.com/watch?v=dQw4w9WgXcQ" ++ suffix)
      = some (strL "dQw4w9WgXcQ") ∧
    get_video_id (strL "https://youtu.be/dQw4w9WgXcQ" ++ suffix)
      = some (strL "dQw4w9WgXcQ") ∧
    get_video_id (strL "http://youtube.com/watch?v=dQw4w9WgXcQ")
      = some (strL "dQw4w9WgXcQ") ∧
    get_video_id (strL "https://m.youtube.com/watch?v=dQw4w9WgXcQ")
      = some (strL "dQw4w9WgXcQ") :=
  ⟨rfl, rfl, rfl, rfl⟩

/-- C1 witness: the two example URLs of the claim, evaluated concretely. -/
theorem claim1_video_id_canonical_w :
    get_video_id (strL "https://www.youtube.com/watch?v=dQw4w9WgXcQ&t=10s")
        = some (strL "dQw4w9WgXcQ") ∧
    get_video_id (strL "https://youtu.be/dQw4w9WgXcQ")
        = some (strL "dQw4w9WgXcQ") :=
  ⟨(claim1_video_id_canonical (strL "&t=10s")).1,
   (claim1_video_id_canonical []).2.1⟩

/-- C10: a URL not belonging to the video-hosting platform still resolves:
a slash followed by 11 identifier-class characters matches the first
pattern, so the example non-platform URL yields an 11-character
identifier instead of failing. -/
theorem claim10_nonplatform_url :
    get_video_id (strL "https://example.com/abcdefghijk")
      = some (strL "abcdefghijk") ∧
    (strL "abcdefghijk").length = 11 := by
  decide

/-- C2: fetch_transcript's track selection follows the ordered fallback:
a manually created track when the manual finder yields one; otherwise a
generated track when that finder yields one; otherwise the first
available track matching the fixed preference list en, ar, es, fr, de,
it. -/
theorem claim2_caption_track_fallback (ts : List CaptionTrack) :
    (∀ t, find_manually_created ts = some t → fetch_transcript_select ts = some t) ∧
    (find_manually_created ts = none →
      ∀ t, find_generated ts = some t → fetch_transcript_select ts = some t) ∧
    (find_manually_created ts = none → find_generated ts = none →
      fetch_transcript_select ts = find_transcript preferenceLanguages ts) := by
  refine ⟨?_, ?_, ?_⟩
  · intro t h
    simp [fetch_transcript_select, h]
  · intro h1 t h2
    simp [fetch_transcript_select, h1, h2]
  · intro h1 h2
    simp [fetch_transcript_select, h1, h2]

/-- C2 witness: with a generated English track listed before a manual
French track, the manual track is selected. -/
theorem claim2_caption_track_fallback_w :
    fetch_transcript_select [⟨strL "en", true⟩, ⟨strL "fr", false⟩]
      = some ⟨strL "fr", false⟩ :=
  (claim2_caption_track_fallback [⟨strL "en", true⟩, ⟨strL "fr", false⟩]).1
    ⟨strL "fr", false⟩ (by decide)

/-- C5: constructing the fetcher with no token configured (or an empty
one) fails with the missing-credential error, and the constructor's
effect trace contains zero network calls. -/
theorem claim5_missing_credential (dir : List Char) (envKey : Option (List Char))
    (h : envTruthy envKey = false) :
    (TranscriptFetcher.construct dir envKey).1
        = Except.error (strL "DEEPSEEK_API_KEY not found in .env file") ∧
    (TranscriptFetcher.construct dir envKey).2.count Effect.httpPost = 0 := by
  cases envKey with
  | none => exact ⟨rfl, rfl⟩
  | some k =>
    simp [envTruthy] at h
    simp [TranscriptFetcher.construct, h]

/-- C5 witness: the unset-variable case, evaluated concretely. -/
theorem claim5_missing_credential_w :
    (TranscriptFetcher.construct (strL "transcripts") none).1
        = Except.error (strL "DEEPSEEK_API_KEY not found in .env file") ∧
    (TranscriptFetcher.construct (strL "transcripts") none).2.count Effect.httpPost = 0 :=
  claim5_missing_credential (strL "transcripts") none (by decide)

/-- C6: download_audio selects by the ordered fallback — highest-bitrate
audio-only stream, else any audio-only stream, else the
lowest-resolution progressive stream, else (on enumeration failure) the
first advertised stream — and on a stream set containing only
progressive streams it selects the lowest-resolution one rather than
failing. -/
theorem claim6_stream_fallback (ss : List MediaStream) :
    (∀ s, highestAbrAudio ss = some s → download_audio ss true = Except.ok s) ∧
    (highestAbrAudio ss = none →
      ∀ s, ss.find? (fun t => t.only_audio) = some s →
        download_audio ss true = Except.ok s) ∧
    (highestAbrAudio ss = none → ss.find? (fun t => t.only_audio) = none →
      ∀ s, lowestResProgressive ss = some s → download_audio ss true = Except.ok s) ∧
    (∀ s, ss.head? = some s → download_audio ss false = Except.ok s) ∧
    download_audio progressiveOnly true = Except.ok prog144 := by
  refine ⟨?_, ?_, ?_, ?_, rfl⟩
  · intro s h
    simp [download_audio, selectStream, h]
  · intro h1 s h2
    simp [download_audio, selectStream, h1, h2]
  · intro h1 h2 s h3
    simp [download_audio, selectStream, h1, h2, h3]
  · intro s h
    simp [download_audio, selectStream, h]

/-- C6 witness: a single audio-only stream is selected by the first tier. -/
theorem claim6_stream_fallback_w :
    download_audio [audioOnly128] true = Except.ok audioOnly128 :=
  (claim6_stream_fallback [audioOnly128]).1 audioOnly128 (by decide)

/-- C9: whenever no tier of the fallback policy returns a stream (the
selection is empty), download_audio fails with the no-stream error. -/
theorem claim9_no_stream_error (ss : List MediaStream) (enumOk : Bool)
    (h : selectStream ss enumOk = none) :
    download_audio ss enumOk = Except.error (strL "No suitable audio stream found") := by
  simp [download_audio, h]

/-- C9 witness: the empty stream set with working enumeration. -/
theorem claim9_no_stream_error_w :
    download_audio [] true = Except.error (strL "No suitable audio stream found") :=
  claim9_no_stream_error [] true (by decide)

/-- C4: the reply is split on blank-line boundaries and each section is
classified by its leading label; a reply missing a category section
yields a record with no category while abstract, key concepts and
summary are populated, and a section with an unrecognized label is
omitted without affecting the rest of the record. -/
theorem claim4_section_omission :
    summarize_parse (strL "ABSTRACT:\nA short abstract.\n\nKEY CONCEPTS:\n• First concept\n• Second concept\n\nSUMMARY:\nThe detailed summary.")
      = { abstract := some (strL "A short abstract."),
          key_concepts := some [strL "First concept", strL "Second concept"],
          category := none,
          summary := some (strL "The detailed summary.") } ∧
    summarize_parse (strL "WHATEVER:\nsomething\n\nABSTRACT:\nok")
      = { abstract := some (strL "ok") } := by
  decide

/-- C3 counterexample: the claim fails as stated.  For the reply with no
recognized section the parsed dict is empty and falsy, so no analysis
file is written at all — the whole record is dropped rather than filled
with placeholders.  For a reply carrying only an abstract, the absent
key-concepts field is written as an empty bullet block, not as an
explicit unavailable placeholder (the file's KEY CONCEPTS heading is
immediately followed by the CATEGORY heading, and no placeholder occurs
in the key-concepts block). -/
theorem claim3_placeholder_counterexample :
    processReply (strL "en") (strL "hello") = none ∧
    processReply (strL "en") (strL "ABSTRACT:\nfoo")
      = some (strL "=== TRANSCRIPT ANALYSIS (Language: en) ===\n\nABSTRACT:\nfoo\n\nKEY CONCEPTS:\n\nCATEGORY:\nNot available\n\nDETAILED SUMMARY:\nNot available") ∧
    occursIn (strL "KEY CONCEPTS:\nNot available")
      ((processReply (strL "en") (strL "ABSTRACT:\nfoo")).getD []) = false := by
  decide

/-- C3 (amended): provided at least one of the four sections was
recognized (the parsed dict is truthy), the analysis file is written,
an absent abstract, category or detailed summary is represented by the
explicit placeholder, and an absent key-concepts field is represented
by an empty bullet block; a reply with no recognized section produces
no analysis file at all. -/
theorem claim3_placeholder_amended (language : List Char) (d : SummaryDict)
    (h : dictTruthy d = true) :
    ∃ file, writeAnalysis language d = some file ∧
      (d.abstract = none →
        occursIn (strL "ABSTRACT:\nNot available") file = true) ∧
      (d.key_concepts = none →
        occursIn (strL "KEY CONCEPTS:\n\nCATEGORY:") file = true) ∧
      (d.category = none →
        occursIn (strL "CATEGORY:\nNot available\n") file = true) ∧
      (d.summary = none →
        occursIn (strL "DETAILED SUMMARY:\nNot available") file = true) := by
  refine ⟨analysisText language d, by simp [writeAnalysis, h], ?_, ?_, ?_, ?_⟩
  · intro hx
    simp only [analysisText, hx, Option.getD_none, List.append_assoc]
    apply occursIn_append_right
    apply occursIn_append_right
    apply occursIn_append_right
    apply occursIn_concat2
    decide
  · intro hx
    simp only [analysisText, hx, Option.getD_none, List.map_nil, List.flatten_nil,
      List.nil_append, List.append_assoc]
    apply occursIn_append_right
    apply occursIn_append_right
    apply occursIn_append_right
    apply occursIn_append_right
    apply occursIn_append_right
    apply occursIn_concat2
    decide
  · intro hx
    simp only [analysisText, hx, Option.getD_none, List.append_assoc]
    apply occursIn_append_right
    apply occursIn_append_right
    apply occursIn_append_right
    apply occursIn_append_right
    apply occursIn_append_right
    apply occursIn_append_right
    apply occursIn_append_right
    apply occursIn_concat3
    decide
  · intro hx
    simp only [analysisText, hx, Option.getD_none, List.append_assoc]
    apply occursIn_append_right
    apply occursIn_append_right
    apply occursIn_append_right
    apply occursIn_append_right
    apply occursIn_append_right
    apply occursIn_append_right
    apply occursIn_append_right
    apply occursIn_append_right
    apply occursIn_append_right
    apply occursIn_append_right
    decide

/-- C3 witness: a dict carrying only an abstract, evaluated concretely. -/
theorem claim3_placeholder_amended_w :
    ∃ file,
      writeAnalysis (strL "en") { abstract := some (strL "A") } = some file ∧
      (SummaryDict.abstract { abstract := some (strL "A") } = none →
        occursIn (strL "ABSTRACT:\nNot available") file = true) ∧
      (SummaryDict.key_concepts { abstract := some (strL "A") } = none →
        occursIn (strL "KEY CONCEPTS:\n\nCATEGORY:") file = true) ∧
      (SummaryDict.category { abstract := some (strL "A") } = none →
        occursIn (strL "CATEGORY:\nNot available\n") file = true) ∧
      (SummaryDict.summary { abstract := some (strL "A") } = none →
        occursIn (strL "DETAILED SUMMARY:\nNot available") file = true) :=
  claim3_placeholder_amended (strL "en") { abstract := some (strL "A") } (by decide)

/-- C7: when the transcript stage succeeded (a Transcript Record was
fetched, writing the transcript file) and the subsequent summarization
stage fails, the pipeline's writes consist of exactly the transcript
file with its transcript-stage content — the transcript survives
unchanged and no analysis output is written. -/
theorem claim7_transcript_persists (videoId transcript language reply : List Char)
    (apiOk : Bool) (h : summarizationFails apiOk reply = true) :
    runCaptionPipeline videoId (some (transcript, language)) apiOk reply
      = [(videoId ++ strL "_transcript.txt",
          transcriptFileContent transcript language)] := by
  have hpt : process_transcript language apiOk reply = none := by
    cases apiOk with
    | false => rfl
    | true =>
      simp [summarizationFails] at h
      simp [process_transcript, summarize_text, writeAnalysis, h]
  simp [runCaptionPipeline, hpt]

/-- C7 witness: a fetched transcript with a remote reply that parses to
nothing, evaluated concretely. -/
theorem claim7_transcript_persists_w :
    runCaptionPipeline (strL "vid") (some (strL "T", strL "en")) true (strL "hello")
      = [(strL "vid" ++ strL "_transcript.txt",
          transcriptFileContent (strL "T") (strL "en"))] :=
  claim7_transcript_persists (strL "vid") (strL "T") (strL "en") (strL "hello") true
    (by decide)

/-- C8 counterexample: the claim fails as stated.  The bullet line of a
key-concepts section keeps only the text left after stripping bullet
markers and spaces from BOTH ends (Python str.strip with a character
set), so a line whose text ends in a bullet marker loses it: the bullet
parsed from the example line is the stripped text, which differs from
the line with only its leading marker removed. -/
theorem claim8_bullet_counterexample :
    (summarize_parse (strL "KEY CONCEPTS:\n• alpha •")).key_concepts
        = some [strL "alpha"] ∧
    strL "alpha" ≠ strL "alpha •" := by
  decide

/-- C8 (amended): within a key-concepts section, each line after the
label whose whitespace-strip is non-empty yields exactly one bullet,
obtained by stripping bullet markers and spaces from both ends of the
line and then stripping whitespace; lines that are whitespace-only are
dropped and the interior of each line is preserved. -/
theorem claim8_bullet_amended (lines : List (List Char)) (h0 : lines ≠ [])
    (h1 : ∀ l ∈ lines, ∀ c ∈ l, c ≠ '\n') :
    parseBullets (strL "KEY CONCEPTS:" ++ '\n' :: joinNL lines)
      = lines.filterMap (fun line =>
          if pyStrip line = [] then none
          else some (pyStrip (stripBoth isBulletSpace line))) := by
  unfold parseBullets
  rw [splitChar_append_sep '\n' (strL "KEY CONCEPTS:") (joinNL lines) (by decide),
    splitChar_joinNL lines h0 h1]
  simp

/-- C8 witness: three lines — a bullet, a whitespace-only line, and a
bullet with a trailing marker — evaluated concretely. -/
theorem claim8_bullet_amended_w :
    parseBullets (strL "KEY CONCEPTS:" ++ '\n' ::
        joinNL [strL "• one", strL "  ", strL "• two •"])
      = [strL "one", strL "two"] :=
  claim8_bullet_amended [strL "• one", strL "  ", strL "• two •"]
    (by decide) (by decide)

end YTrans
